import Mathlib

/-!
Shallow embedding of the temporal-pattern inference core of
`generate_pie_insights.py` (with the report footer of `data_analysis.py`),
and proofs settling the stated claims about it.

Modelling conventions:
* A timestamp is an integer day offset (`Int`); all dates in the pipeline are
  whole days (CSV dates parsed at midnight), and pandas `Timedelta.days` on a
  possibly fractional difference floors toward minus infinity, modelled with
  `Int.floor` over `ℚ`.
* Python float arithmetic on the small interval/mean values is modelled with
  exact rationals (`ℚ`).  `round(x, 1)` is modelled by `round1` below; the
  half-even / half-up discrepancy arises only at exact .x5 midpoints of the
  scaled value, which no statement here exercises.
* Missing values (`NaN` trade licenses, `NaN` gallons, `np.mean([])`) are
  modelled with `Option`.
* A Python runtime error (e.g. `ZeroDivisionError`) is modelled with
  `Except String`.
-/

namespace PieDash

/-- Risk tier returned by `get_risk_level`. -/
inductive RiskLevel where
  | normal
  | upcoming
  | warning
  | critical
deriving DecidableEq, Repr

/-- One cleaned collection record (one row of the Q1-2023 dataframe).
`tradeLicense` is `none` when `Trade License Number` is NaN after coercion;
`gallons` is `none` when `Sum of Gallons Collected` is NaN. -/
structure Event where
  entityId : Nat
  tradeLicense : Option Nat
  collectedDay : Int
  outlet : String
  category : String
  area : String
  zone : String
  gallons : Option ℚ
deriving DecidableEq, Repr

/-- `get_risk_level(days_overdue)` from `generate_pie_insights.py`. -/
def get_risk_level (daysOverdue : Int) : RiskLevel :=
  if daysOverdue ≤ 0 then .normal
  else if daysOverdue ≤ 5 then .upcoming
  else if daysOverdue ≤ 10 then .warning
  else .critical

/-- Insert an event into a list sorted ascending by `collectedDay`
(helper for `sort_values('Collected Date')`). -/
def insertByDay (x : Event) : List Event → List Event
  | [] => [x]
  | y :: ys => if x.collectedDay < y.collectedDay then x :: y :: ys else y :: insertByDay x ys

/-- `sort_values('Collected Date')`: sort events ascending by day. -/
def sortByDay : List Event → List Event
  | [] => []
  | x :: xs => insertByDay x (sortByDay xs)

/-- Consecutive day gaps `(t[i] - t[i-1]).days` of a chronologically
ordered event list. -/
def gapsOf : List Event → List Int
  | a :: b :: rest => (b.collectedDay - a.collectedDay) :: gapsOf (b :: rest)
  | _ => []

/-- The gaps kept by the `1 <= interval <= 120` filter. -/
def validIntervals (l : List Event) : List Int :=
  (gapsOf l).filter (fun g => decide (1 ≤ g ∧ g ≤ 120))

/-- `np.mean` over a list of integer gaps, as an exact rational. -/
def listMeanInt (l : List Int) : ℚ :=
  ((l.map (fun g => (g : ℚ))).sum) / (l.length : ℚ)

/-- `np.mean` over a list of rationals. -/
def listMeanQ (l : List ℚ) : ℚ := l.sum / (l.length : ℚ)

/-- Python `round(x, 1)` on the (exact-rational model of the) float `x`. -/
def round1 (q : ℚ) : ℚ := (round (q * 10) : ℚ) / 10

/-- The interval estimator of `calculate_collection_patterns`: the mean of
the in-range consecutive gaps of one entity's chronologically ordered
events, or `none` when no gap qualifies (fewer than two events, or every
gap outside `[1, 120]`). -/
def avgIntervalDays (l : List Event) : Option ℚ :=
  if validIntervals l = [] then none else some (listMeanInt (validIntervals l))

end PieDash

namespace PieDash

/-- `(reference_date - expected_next).days` where
`expected_next = last_collection + timedelta(days=avg)`:
the floor, in whole days, of `reference_date - (last_collection + avg)`. -/
def rawDaysOverdue (refDate lastCollection : Int) (avg : ℚ) : Int :=
  Int.floor ((refDate : ℚ) - ((lastCollection : ℚ) + avg))

/-- One element of `patterns['entities']` built by
`calculate_collection_patterns`. `avg_interval_days` stores the value
rounded to one decimal, as the source's dict does; `days_overdue` stores
`max(0, days_overdue)` as the source's dict does, while `risk_level` is
computed from the unclamped value. -/
structure EntityPattern where
  trade_license : Nat
  entity_id : Nat
  outlet_name : String
  category : String
  area : String
  zone : String
  collections_count : Nat
  avg_interval_days : ℚ
  last_collection : Int
  days_since_last : Int
  days_overdue : Int
  risk_level : RiskLevel
  avg_gallons : Option ℚ
deriving DecidableEq, Repr

/-- Mean of the present gallons values of an entity's rows
(pandas `.mean()` skips NaN; all-NaN gives NaN, modelled `none`),
rounded to one decimal. -/
def avgGallonsOf (l : List Event) : Option ℚ :=
  let gs := l.filterMap (·.gallons)
  if gs = [] then none else some (round1 (listMeanQ gs))

/-- The body of the per-trade-license loop of `calculate_collection_patterns`:
given the reference date, a trade license and that license's rows sorted by
collected date, build the entity pattern, or `none` when fewer than two rows
or no in-range gap exists. -/
def mkEntityPattern (refDate : Int) (tl : Nat) (l : List Event) : Option EntityPattern :=
  match l.getLast? with
  | none => none
  | some lastEv =>
    if l.length < 2 then none
    else if validIntervals l = [] then none
    else some
      { trade_license := tl
        entity_id := lastEv.entityId
        outlet_name := lastEv.outlet
        category := lastEv.category
        area := lastEv.area
        zone := lastEv.zone
        collections_count := l.length
        avg_interval_days := round1 (listMeanInt (validIntervals l))
        last_collection := lastEv.collectedDay
        days_since_last := refDate - lastEv.collectedDay
        days_overdue :=
          max 0 (rawDaysOverdue refDate lastEv.collectedDay (listMeanInt (validIntervals l)))
        risk_level :=
          get_risk_level (rawDaysOverdue refDate lastEv.collectedDay (listMeanInt (validIntervals l)))
        avg_gallons := avgGallonsOf l }

/-- First-appearance-order deduplication, as pandas `.unique()` does. -/
def uniqueFirstAux (seen : List Nat) : List Nat → List Nat
  | [] => []
  | x :: xs => if x ∈ seen then uniqueFirstAux seen xs else x :: uniqueFirstAux (x :: seen) xs

/-- `df['Trade License Number'].dropna().unique()`: the distinct trade
licenses in first-appearance order, NaN rows dropped. -/
def tradeLicensesOf (df : List Event) : List Nat :=
  uniqueFirstAux [] (df.filterMap (·.tradeLicense))

/-- `df[df['Trade License Number'] == trade_license].sort_values('Collected Date')`. -/
def entityDataFor (df : List Event) (tl : Nat) : List Event :=
  sortByDay (df.filter (fun e => decide (e.tradeLicense = some tl)))

/-- `patterns['entities']` of `calculate_collection_patterns`: one pattern
per distinct trade license that has at least two rows and an in-range gap. -/
def entity_patterns (refDate : Int) (df : List Event) : List EntityPattern :=
  (tradeLicensesOf df).filterMap (fun tl => mkEntityPattern refDate tl (entityDataFor df tl))

/-! ### Capacity forecast (`generate_predictive_patterns`, capacity planning loop) -/

/-- The membership test of the capacity-planning loop:
`abs((future_date - next_expected).days) <= 1` for `future_date =
reference_date + i` and `next_expected = last_collection +
timedelta(days=entity['avg_interval_days'])` (the stored, rounded value). -/
def forecastMatches (refDate : Int) (p : EntityPattern) (i : Nat) : Bool :=
  decide ((Int.floor (((refDate + (i : Int) : Int) : ℚ)
    - ((p.last_collection : ℚ) + p.avg_interval_days))).natAbs ≤ 1)

/-- `daily_capacity_needed`: for each of the next 30 days, the number of
entity patterns whose expected next collection falls within one day. -/
def daily_capacity_needed (refDate : Int) (ps : List EntityPattern) : List (Int × Nat) :=
  (List.range' 1 30).map
    (fun (i : Nat) =>
      (refDate + (i : Int), (ps.filter (fun p => forecastMatches refDate p i)).length))

/-- The forecast days (offsets `1..30` from the reference date) to which one
entity contributes: a derived notion used to state how often a single entity
is counted across the horizon. -/
def contributionDays (refDate : Int) (p : EntityPattern) : List Nat :=
  (List.range' 1 30).filter (fun i => forecastMatches refDate p i)

/-! ### Alerts (`generate_delays_analysis`) -/

/-- One element of `critical_alerts_summary`. -/
structure AlertEntry where
  entity_id : Nat
  outlet_name : String
  category : String
  area : String
  days_overdue : Int
  last_collection : Int
  expected_interval : ℚ
deriving DecidableEq, Repr

/-- The field projection applied to each alert dict. -/
def toAlertEntry (p : EntityPattern) : AlertEntry :=
  { entity_id := p.entity_id
    outlet_name := p.outlet_name
    category := p.category
    area := p.area
    days_overdue := p.days_overdue
    last_collection := p.last_collection
    expected_interval := p.avg_interval_days }

/-- `critical_alerts_summary` of `generate_delays_analysis`: the entities
with `risk_level == 'critical'` in pattern order, truncated to the first 20,
projected to the alert fields. -/
def critical_alerts_summary (ps : List EntityPattern) : List AlertEntry :=
  ((ps.filter (fun p => decide (p.risk_level = .critical))).take 20).map toAlertEntry

/-- `risk_summary` of `generate_delays_analysis`. -/
structure RiskSummary where
  critical : Nat
  warning : Nat
  upcoming : Nat
  normal : Nat
deriving DecidableEq, Repr

/-- The `delays_alerts_analysis` fields whose computation can fail. -/
structure DelaysAnalysis where
  risk_summary : RiskSummary
  critical_alerts : List AlertEntry
  total_entities_analyzed : Nat
  entities_with_delays : Nat
  delay_rate_percent : ℚ
  avg_overdue_days : Option ℚ
deriving DecidableEq, Repr

/-- `generate_delays_analysis`: builds the risk summary, the critical-alert
list and the intelligence insights.  `delay_rate` divides by
`len(entity_patterns)`, which raises `ZeroDivisionError` when no entity has
a pattern, modelled as `Except.error`; `np.mean` over the empty list of
positive overdue values is NaN, modelled as `none`. -/
def generate_delays_analysis (ps : List EntityPattern) : Except String DelaysAnalysis :=
  let summary : RiskSummary :=
    { critical := (ps.filter (fun e => decide (e.risk_level = .critical))).length
      warning := (ps.filter (fun e => decide (e.risk_level = .warning))).length
      upcoming := (ps.filter (fun e => decide (e.risk_level = .upcoming))).length
      normal := (ps.filter (fun e => decide (e.risk_level = .normal))).length }
  if ps.length = 0 then .error "ZeroDivisionError: division by zero"
  else
    let overdueVals := (ps.filter (fun e => decide (0 < e.days_overdue))).map
      (fun e => (e.days_overdue : ℚ))
    .ok
      { risk_summary := summary
        critical_alerts := critical_alerts_summary ps
        total_entities_analyzed := ps.length
        entities_with_delays := summary.critical + summary.warning
        delay_rate_percent :=
          (((summary.critical + summary.warning : Nat) : ℚ) / (ps.length : ℚ)) * 100
        avg_overdue_days :=
          if overdueVals = [] then none else some (round1 (listMeanQ overdueVals)) }

/-! ### Group (category) aggregation -/

/-- `calculate_category_intervals`: within one category's rows, for each
distinct `New E ID` (first-appearance order), the in-range consecutive gaps
of that entity's date-sorted rows, pooled into one flat list. -/
def calculate_category_intervals (categoryData : List Event) : List Int :=
  ((uniqueFirstAux [] (categoryData.map (·.entityId))).map
    (fun eid =>
      if 2 ≤ (sortByDay (categoryData.filter (fun e => decide (e.entityId = eid)))).length
      then validIntervals (sortByDay (categoryData.filter (fun e => decide (e.entityId = eid))))
      else [])).flatten

/-- The category-level `avg_interval_days` of `calculate_collection_patterns`:
`round(np.mean(intervals), 1) if intervals else 14` over the pooled gaps of
the category's rows. -/
def categoryAvgInterval (df : List Event) (c : String) : ℚ :=
  if calculate_category_intervals (df.filter (fun e => decide (e.category = c))) = [] then 14
  else round1 (listMeanInt (calculate_category_intervals (df.filter (fun e => decide (e.category = c)))))

/-- The `risk_distribution` dict of `category_behavior_patterns` in
`generate_entity_intelligence`: it records counts for exactly the three
keys `critical`, `warning`, `normal`. -/
structure RiskDistribution3 where
  critical : Nat
  warning : Nat
  normal : Nat
deriving DecidableEq, Repr

/-- One category's entry of `category_behavior_patterns`
(`total_entities` and `risk_distribution`). -/
def categoryBehavior (ps : List EntityPattern) (c : String) : Nat × RiskDistribution3 :=
  let catEntities := ps.filter (fun e => decide (e.category = c))
  (catEntities.length,
    { critical := (catEntities.filter (fun e => decide (e.risk_level = .critical))).length
      warning := (catEntities.filter (fun e => decide (e.risk_level = .warning))).length
      normal := (catEntities.filter (fun e => decide (e.risk_level = .normal))).length })

/-! ### Report footer (`data_analysis.py`, `generate_markdown_report`) -/

/-- The final line of the markdown report: it interpolates
`datetime.now().strftime('%Y-%m-%d %H:%M:%S')` and the record count
(thousands separators elided). -/
def markdownFooter (totalRecords : Nat) (now : String) : String :=
  "*Report generated on " ++ now ++ " based on comprehensive analysis of "
    ++ toString totalRecords ++ " waste collection service records.*"

/-- One combined run of the two scripts: the insight pipeline of
`generate_pie_insights.py` (a pure function of the events and the injected
reference date) together with the report footer of `data_analysis.py`,
which reads the wall clock `now`. -/
structure RunOutput where
  patterns : List EntityPattern
  delays : Except String DelaysAnalysis
  forecast : List (Int × Nat)
  reportFooter : String
deriving Repr

/-- `runEngine events refDate now`: everything either script produces from
the cleaned events; only the report footer consults the wall clock. -/
def runEngine (df : List Event) (refDate : Int) (now : String) : RunOutput :=
  { patterns := entity_patterns refDate df
    delays := generate_delays_analysis (entity_patterns refDate df)
    forecast := daily_capacity_needed refDate (entity_patterns refDate df)
    reportFooter := markdownFooter df.length now }

/-! ### Spec-side definitions, for refinement comparison only.
The following `claimed…` definitions follow the words of the specification
(not the source) and exist solely to be compared with the source-derived
definitions above. -/

/-- Stable insertion for `claimedSortAlerts`. -/
def insertAlertBy (r : EntityPattern → EntityPattern → Bool) (x : EntityPattern) :
    List EntityPattern → List EntityPattern
  | [] => [x]
  | y :: ys => if r x y then x :: y :: ys else y :: insertAlertBy r x ys

/-- Insertion sort by an "comes before" boolean relation. -/
def claimedSortAlerts (r : EntityPattern → EntityPattern → Bool) :
    List EntityPattern → List EntityPattern
  | [] => []
  | x :: xs => insertAlertBy r x (claimedSortAlerts r xs)

/-- The spec's alert order: `days_overdue` descending, ties broken by
entity identifier ascending. -/
def claimedAlertBefore (a b : EntityPattern) : Bool :=
  decide (b.days_overdue < a.days_overdue ∨
    (a.days_overdue = b.days_overdue ∧ a.entity_id ≤ b.entity_id))

/-- The critical-alert list as the claim words it: critical entities sorted
by `days_overdue` descending (ties by entity identifier ascending),
truncated to 20. -/
def claimedCriticalAlerts (ps : List EntityPattern) : List AlertEntry :=
  ((claimedSortAlerts claimedAlertBefore
    (ps.filter (fun p => decide (p.risk_level = .critical)))).take 20).map toAlertEntry

/-- The group-level average as the claim words it: the unweighted mean over
the group's member entities of each entity's own `avg_interval_days`,
substituting the default 14 for entities without an estimate; 14 for an
empty group. -/
def claimedCategoryAvg (df : List Event) (c : String) : ℚ :=
  let catData := df.filter (fun e => decide (e.category = c))
  let eids := uniqueFirstAux [] (catData.map (·.entityId))
  let memberAvgs := eids.map
    (fun eid =>
      (avgIntervalDays (sortByDay (catData.filter (fun e => decide (e.entityId = eid))))).getD 14)
  if memberAvgs = [] then 14 else listMeanQ memberAvgs

/-- Per-entity patterns as the claim words them: keyed by the stable entity
identifier (`New E ID`), every event participating regardless of the
trade-license field. -/
def claimedPatternsById (refDate : Int) (df : List Event) : List EntityPattern :=
  (uniqueFirstAux [] (df.map (·.entityId))).filterMap
    (fun eid =>
      mkEntityPattern refDate 0 (sortByDay (df.filter (fun e => decide (e.entityId = eid)))))

/-! ### Concrete inputs used by the counterexamples and witnesses -/

/-- Event constructor helper for the concrete scenarios. -/
def mkEv (eid : Nat) (tl : Option Nat) (day : Int) (cat area : String) : Event :=
  { entityId := eid, tradeLicense := tl, collectedDay := day,
    outlet := "O", category := cat, area := area, zone := "Z", gallons := some 40 }

/-- C1 scenario: one entity, gap 10, last collection on the reference date
(day 0), so `expected_next` is day 10 of the forecast horizon. -/
def c1Events : List Event :=
  [mkEv 44 (some 4) (-10) "Restaurant" "Marina", mkEv 44 (some 4) 0 "Restaurant" "Marina"]

/-- C2 scenario: two critical entities; the first to appear (license 1) is
15 days overdue, the second (license 2) is 30 days overdue. -/
def c2Events : List Event :=
  [mkEv 11 (some 1) (-35) "R" "A", mkEv 11 (some 1) (-25) "R" "A",
   mkEv 22 (some 2) (-50) "R" "A", mkEv 22 (some 2) (-40) "R" "A"]

/-- C3 scenario: one entity, gap 10, last collection on the reference date;
its raw overdue count is `-10` (not yet due). -/
def c3Events : List Event :=
  [mkEv 9 (some 3) (-10) "R" "A", mkEv 9 (some 3) 0 "R" "A"]

/-- C4 scenario: one `upcoming` entity (raw overdue 3) in category "Cafe". -/
def c4Events : List Event :=
  [mkEv 33 (some 5) (-23) "Cafe" "A", mkEv 33 (some 5) (-13) "Cafe" "A"]

/-- C5 scenario: category "R" with entity 1 (gaps 10 and 20, own mean 15)
and entity 2 (gap 30, own mean 30). -/
def c5Events : List Event :=
  [mkEv 1 (some 6) 0 "R" "A", mkEv 1 (some 6) 10 "R" "A", mkEv 1 (some 6) 30 "R" "A",
   mkEv 2 (some 7) 0 "R" "A", mkEv 2 (some 7) 30 "R" "A"]

/-- C7 scenario: one entity (id 5) whose trade license was renewed between
its two collections (license 100, then 200), 10 days apart. -/
def c7Events : List Event :=
  [mkEv 5 (some 100) 0 "R" "A", mkEv 5 (some 200) 10 "R" "A"]

/-! ### Helper lemmas shared by the claim theorems -/

/-- Every gap the `1 <= interval <= 120` filter keeps is in range. -/
lemma mem_validIntervals {l : List Event} {g : Int} (hg : g ∈ validIntervals l) :
    1 ≤ g ∧ g ≤ 120 := by
  unfold validIntervals at hg
  rw [List.mem_filter] at hg
  exact of_decide_eq_true hg.2

lemma insertByDay_length (x : Event) (l : List Event) :
    (insertByDay x l).length = l.length + 1 := by
  induction l with
  | nil => rfl
  | cons y ys ih =>
    unfold insertByDay
    split_ifs <;> simp [ih]

lemma sortByDay_length (l : List Event) : (sortByDay l).length = l.length := by
  induction l with
  | nil => rfl
  | cons x xs ih => simp [sortByDay, insertByDay_length, ih]

/-- First-appearance deduplication only returns values of the input list. -/
lemma mem_uniqueFirstAux {x : Nat} :
    ∀ (seen l : List Nat), x ∈ uniqueFirstAux seen l → x ∈ l := by
  intro seen l
  induction l generalizing seen with
  | nil => simp [uniqueFirstAux]
  | cons y ys ih =>
    intro h
    unfold uniqueFirstAux at h
    split_ifs at h with hy
    · exact List.mem_cons_of_mem _ (ih _ h)
    · rcases List.mem_cons.mp h with rfl | h'
      · exact List.mem_cons_self _ _
      · exact List.mem_cons_of_mem _ (ih _ h')

/-- The pattern built for a trade license carries that license and the
number of rows of that license. -/
lemma mkEntityPattern_fields {refDate : Int} {tl : Nat} {l : List Event} {p : EntityPattern}
    (hp : mkEntityPattern refDate tl l = some p) :
    p.trade_license = tl ∧ p.collections_count = l.length := by
  unfold mkEntityPattern at hp
  cases hgl : l.getLast? <;> rw [hgl] at hp
  · exact Option.noConfusion hp
  · split_ifs at hp
    have := Option.some.inj hp
    subst this
    exact ⟨rfl, rfl⟩

end PieDash

namespace PieDash

/-! ### Claim theorems -/

/-- C9: for every integer `days_overdue`, the risk classification is exactly
`≤ 0 → normal`, `1..5 → upcoming`, `6..10 → warning`, `> 10 → critical`,
and every boundary value (0, 1, 5, 6, 10, 11) lands in the stated tier. -/
theorem c9_risk_boundaries (d : Int) :
    (d ≤ 0 → get_risk_level d = .normal) ∧
    (1 ≤ d → d ≤ 5 → get_risk_level d = .upcoming) ∧
    (6 ≤ d → d ≤ 10 → get_risk_level d = .warning) ∧
    (10 < d → get_risk_level d = .critical) ∧
    (get_risk_level 0 = .normal ∧ get_risk_level 1 = .upcoming ∧
     get_risk_level 5 = .upcoming ∧ get_risk_level 6 = .warning ∧
     get_risk_level 10 = .warning ∧ get_risk_level 11 = .critical) := by
  refine ⟨?_, ?_, ?_, ?_, by decide⟩
  · intro h
    simp only [get_risk_level, if_pos h]
  · intro h1 h5
    simp only [get_risk_level]
    rw [if_neg (by omega), if_pos (by omega)]
  · intro h6 h10
    simp only [get_risk_level]
    rw [if_neg (by omega), if_neg (by omega), if_pos (by omega)]
  · intro h
    simp only [get_risk_level]
    rw [if_neg (by omega), if_neg (by omega), if_neg (by omega)]

/-- Witness for C9 at a concrete boundary-interior value. -/
theorem c9_witness : get_risk_level 3 = .upcoming :=
  (c9_risk_boundaries 3).2.1 (by decide) (by decide)

/-- C10: an entity with exactly two (chronologically ordered) events `d`
whole days apart, `1 ≤ d ≤ 120`, gets `avg_interval_days = d` exactly;
every included gap lies in `[1, 120]`; and when any gap qualifies, the
estimate is the arithmetic mean of exactly the included gaps. -/
theorem c10_interval_estimator :
    (∀ (e1 e2 : Event) (d : Int), e2.collectedDay - e1.collectedDay = d →
        1 ≤ d → d ≤ 120 → avgIntervalDays [e1, e2] = some (d : ℚ)) ∧
    (∀ (l : List Event) (g : Int), g ∈ validIntervals l → 1 ≤ g ∧ g ≤ 120) ∧
    (∀ l : List Event, validIntervals l ≠ [] →
        avgIntervalDays l = some (listMeanInt (validIntervals l))) := by
  refine ⟨?_, fun l g hg => mem_validIntervals hg, ?_⟩
  · intro e1 e2 d hd h1 h120
    have hgaps : validIntervals [e1, e2] = [d] := by
      have hdec : decide (1 ≤ d ∧ d ≤ 120) = true := by
        simp [h1, h120]
      simp [validIntervals, gapsOf, hd, hdec]
      exact ⟨h1, h120⟩
    rw [avgIntervalDays, hgaps]
    have : listMeanInt [d] = (d : ℚ) := by
      simp [listMeanInt]
    simp [this]
  · intro l h
    rw [avgIntervalDays, if_neg h]

/-- Witness for C10: two events seven days apart yield the estimate 7. -/
theorem c10_witness : avgIntervalDays [mkEv 1 none 0 "R" "A", mkEv 1 none 7 "R" "A"] = some 7 :=
  c10_interval_estimator.1 (mkEv 1 none 0 "R" "A") (mkEv 1 none 7 "R" "A") 7
    (by decide) (by decide) (by decide)

/-- C6 (code bug): with zero entities having a valid interval, the
delays/alerts analysis does not complete — `delay_rate` divides by
`len(entity_patterns)`, raising `ZeroDivisionError` on the empty pattern
list, contrary to the claim that the core never raises. -/
theorem c6_empty_input_raises :
    entity_patterns 0 [] = [] ∧
    generate_delays_analysis (entity_patterns 0 []) =
      .error "ZeroDivisionError: division by zero" :=
  ⟨rfl, rfl⟩

/-- C1 counterexample: the entity of `c1Events` (last collection on the
reference date, `avg_interval_days = 10`) is counted on three forecast
days — offsets 9, 10 and 11 — not at most one. -/
theorem c1_counterexample :
    (entity_patterns 0 c1Events).map (fun p => contributionDays 0 p) = [[9, 10, 11]] ∧
    ([9, 10, 11] : List Nat).length ≠ 1 := by
  constructor
  · with_unfolding_all decide
  · decide

/-- C1 amended: the capacity loop counts an entity once per forecast day
inside the ±1 tolerance window of its expected next collection; an entity
whose expected next collection falls exactly on day `e` of the horizon,
`2 ≤ e ≤ 29`, contributes to exactly three forecast days (`e-1`, `e`,
`e+1`). -/
theorem c1_window_contribution (refDate e : Int) (p : EntityPattern)
    (hexp : (p.last_collection : ℚ) + p.avg_interval_days = ((refDate + e : Int) : ℚ))
    (h2 : 2 ≤ e) (h29 : e ≤ 29) :
    (contributionDays refDate p).length = 3 := by
  have hm : ∀ i : Nat, forecastMatches refDate p i = decide (((i : Int) - e).natAbs ≤ 1) := by
    intro i
    unfold forecastMatches
    rw [hexp]
    have hcast : ((refDate + (i : Int) : Int) : ℚ) - ((refDate + e : Int) : ℚ)
        = (((i : Int) - e : Int) : ℚ) := by
      push_cast
      ring
    rw [hcast, Int.floor_intCast]
  have hfilter : contributionDays refDate p
      = (List.range' 1 30).filter (fun (i : Nat) => decide (((i : Int) - e).natAbs ≤ 1)) := by
    unfold contributionDays
    exact List.filter_congr (fun i _ => hm i)
  rw [hfilter]
  interval_cases e <;> decide

/-- Witness for C1: the entity of `c1Events` instantiates the amended
statement at `e = 10`. -/
theorem c1_witness :
    (contributionDays 0
      (⟨4, 44, "O", "Restaurant", "Marina", "Z", 2, 10, 0, 0, 0, .normal, some 40⟩ :
        EntityPattern)).length = 3 :=
  c1_window_contribution 0 10 _ (by with_unfolding_all decide) (by decide) (by decide)

/-- C2 counterexample: on `c2Events` the produced critical-alert list keeps
pattern order (`days_overdue` values `[15, 30]`) and differs from the
claimed list sorted by `days_overdue` descending. -/
theorem c2_counterexample :
    (critical_alerts_summary (entity_patterns 0 c2Events)).map (·.days_overdue) = [15, 30] ∧
    critical_alerts_summary (entity_patterns 0 c2Events) ≠
      claimedCriticalAlerts (entity_patterns 0 c2Events) := by
  constructor <;> with_unfolding_all decide

/-- C2 amended: the critical-alert list is exactly the first at most 20
entities of risk level `critical` in pattern (input) order, not resorted by
`days_overdue`: its length is the minimum of 20 and the number of critical
entities, it is an initial segment (prefix) of the critical entities'
alert projections in input order — which together determine the list
uniquely — each of the first 20 critical entities does appear in it, and
every entry comes from a critical entity of the input. -/
theorem c2_alerts_shape (ps : List EntityPattern) :
    (critical_alerts_summary ps).length
      = min 20 ((ps.filter (fun p => decide (p.risk_level = .critical))).length) ∧
    List.IsPrefix (critical_alerts_summary ps)
      ((ps.filter (fun p => decide (p.risk_level = .critical))).map toAlertEntry) ∧
    (∀ p ∈ (ps.filter (fun p => decide (p.risk_level = .critical))).take 20,
        toAlertEntry p ∈ critical_alerts_summary ps) ∧
    ∀ a ∈ critical_alerts_summary ps,
      ∃ p, p ∈ ps ∧ p.risk_level = .critical ∧ toAlertEntry p = a := by
  refine ⟨?_, ?_, ?_, ?_⟩
  · simp only [critical_alerts_summary, List.length_map, List.length_take]
  · rw [critical_alerts_summary, List.map_take]
    exact List.take_prefix 20 _
  · intro p hp
    exact List.mem_map_of_mem toAlertEntry hp
  · intro a ha
    unfold critical_alerts_summary at ha
    rw [List.mem_map] at ha
    obtain ⟨p, hp, hpa⟩ := ha
    have hp' := List.mem_of_mem_take hp
    rw [List.mem_filter] at hp'
    exact ⟨p, hp'.1, of_decide_eq_true hp'.2, hpa⟩

/-- Witness for C2 at the concrete `c2Events` input: both critical entities
are listed — the length equals min 20 2 and the first critical entity's
alert entry is a member. -/
theorem c2_witness :
    (critical_alerts_summary (entity_patterns 0 c2Events)).length
      = min 20 (((entity_patterns 0 c2Events).filter
          (fun p => decide (p.risk_level = .critical))).length) ∧
    toAlertEntry
        (⟨1, 11, "O", "R", "A", "Z", 2, 10, -25, 25, 15, .critical, some 40⟩ : EntityPattern)
      ∈ critical_alerts_summary (entity_patterns 0 c2Events) :=
  ⟨(c2_alerts_shape (entity_patterns 0 c2Events)).1,
   (c2_alerts_shape (entity_patterns 0 c2Events)).2.2.1 _ (by with_unfolding_all decide)⟩

/-- C3 counterexample: for the entity of `c3Events` (not yet due) the
reference-minus-expected difference in whole days is `-10`, but the
reported `days_overdue` is `0`, not negative. -/
theorem c3_counterexample :
    (entity_patterns 0 c3Events).map (·.days_overdue) = [0] ∧
    avgIntervalDays (entityDataFor c3Events 3) = some 10 ∧
    rawDaysOverdue 0 0 10 = -10 ∧
    (0 : Int) ≠ -10 := by
  refine ⟨by with_unfolding_all decide, by with_unfolding_all decide,
    by with_unfolding_all decide, by decide⟩

/-- C3 amended: the reported `days_overdue` is the whole-day difference
clamped below at zero — `max(0, reference_date - expected_next)` — and is
therefore never negative. -/
theorem c3_overdue_clamped (refDate : Int) (tl : Nat) (l : List Event) (p : EntityPattern)
    (q : ℚ) (hp : mkEntityPattern refDate tl l = some p) (hq : avgIntervalDays l = some q) :
    p.days_overdue = max 0 (rawDaysOverdue refDate p.last_collection q) ∧
    0 ≤ p.days_overdue := by
  unfold avgIntervalDays at hq
  unfold mkEntityPattern at hp
  cases hgl : l.getLast? <;> rw [hgl] at hp
  · exact Option.noConfusion hp
  · split_ifs at hp with h1 h2
    rw [if_neg h2] at hq
    have hq' := Option.some.inj hq
    have hp' := Option.some.inj hp
    subst hp'
    subst hq'
    exact ⟨rfl, le_max_left _ _⟩

/-- Witness for C3 at the concrete `c3Events` input. -/
theorem c3_witness :
    (⟨3, 9, "O", "R", "A", "Z", 2, 10, 0, 0, 0, .normal, some 40⟩ :
        EntityPattern).days_overdue
      = max 0 (rawDaysOverdue 0 0 10) ∧
    (0 : Int) ≤ (⟨3, 9, "O", "R", "A", "Z", 2, 10, 0, 0, 0, .normal, some 40⟩ :
        EntityPattern).days_overdue :=
  c3_overdue_clamped 0 3 (entityDataFor c3Events 3) _ 10 (by with_unfolding_all decide)
    (by with_unfolding_all decide)

/-- C4 counterexample: category "Cafe" of `c4Events` has one entity, whose
risk level is `upcoming`; the recorded `risk_distribution` has no key for
it, so the per-tier counts (with the absent tier read as zero) sum to 0,
not to the group's entity count 1. -/
theorem c4_counterexample :
    categoryBehavior (entity_patterns 0 c4Events) "Cafe" = (1, ⟨0, 0, 0⟩) ∧
    (entity_patterns 0 c4Events).map (·.risk_level) = [.upcoming] ∧
    (0 + 0 + 0 + 0 : Nat) ≠ 1 := by
  refine ⟨by with_unfolding_all decide, by with_unfolding_all decide, by decide⟩

/-- The four risk tiers partition any pattern list. -/
lemma risk_filter_partition (l : List EntityPattern) :
    (l.filter (fun e => decide (e.risk_level = .critical))).length
      + (l.filter (fun e => decide (e.risk_level = .warning))).length
      + (l.filter (fun e => decide (e.risk_level = .normal))).length
      + (l.filter (fun e => decide (e.risk_level = .upcoming))).length
      = l.length := by
  induction l with
  | nil => rfl
  | cons e t ih =>
    cases he : e.risk_level <;> simp [List.filter_cons, he] <;> omega

/-- C4 amended: the recorded `risk_distribution` counts only the three tiers
`critical`, `warning`, `normal`; their sum equals the group's entity count
minus the number of the group's `upcoming` entities (so the four-tier sum
property fails exactly when an `upcoming` entity is present). -/
theorem c4_distribution_sum (ps : List EntityPattern) (c : String) :
    (categoryBehavior ps c).2.critical + (categoryBehavior ps c).2.warning
      + (categoryBehavior ps c).2.normal
      + ((ps.filter (fun e => decide (e.category = c))).filter
          (fun e => decide (e.risk_level = .upcoming))).length
      = (categoryBehavior ps c).1 := by
  unfold categoryBehavior
  exact risk_filter_partition (ps.filter (fun e => decide (e.category = c)))

/-- C5 counterexample: in category "R" of `c5Events`, entity 1 has gaps
10 and 20 (own mean 15) and entity 2 has gap 30 (own mean 30); the code's
pooled-gap average is 20, while the claimed unweighted mean of member
entities' averages is 22.5. -/
theorem c5_counterexample :
    categoryAvgInterval c5Events "R" = 20 ∧
    claimedCategoryAvg c5Events "R" = 45 / 2 ∧
    (20 : ℚ) ≠ 45 / 2 := by
  refine ⟨by with_unfolding_all decide, by with_unfolding_all decide,
    by with_unfolding_all decide⟩

/-- C5 amended: the group-level average pools every member entity's in-range
consecutive gaps into one flat list and averages that list (weighting each
entity by its number of qualifying gaps, not equally); every pooled gap lies
in `[1, 120]`, and a group with no qualifying gap gets the default 14. -/
theorem c5_pooled_intervals (df : List Event) (c : String) :
    (∀ g ∈ calculate_category_intervals (df.filter (fun e => decide (e.category = c))),
        1 ≤ g ∧ g ≤ 120) ∧
    (calculate_category_intervals (df.filter (fun e => decide (e.category = c))) = [] →
        categoryAvgInterval df c = 14) ∧
    (calculate_category_intervals (df.filter (fun e => decide (e.category = c))) ≠ [] →
        categoryAvgInterval df c = round1 (listMeanInt
          (calculate_category_intervals (df.filter (fun e => decide (e.category = c)))))) := by
  refine ⟨?_, ?_, ?_⟩
  · intro g hg
    unfold calculate_category_intervals at hg
    rw [List.mem_flatten] at hg
    obtain ⟨gs, hgs, hggs⟩ := hg
    rw [List.mem_map] at hgs
    obtain ⟨eid, _, hgse⟩ := hgs
    rw [← hgse] at hggs
    split_ifs at hggs with hlen
    · exact mem_validIntervals hggs
    · exact absurd hggs (List.not_mem_nil g)
  · intro h
    rw [categoryAvgInterval, if_pos h]
  · intro h
    rw [categoryAvgInterval, if_neg h]

/-- Witness for C5 at the concrete `c5Events` input. -/
theorem c5_witness :
    (1 ≤ (10 : Int) ∧ (10 : Int) ≤ 120) ∧
    categoryAvgInterval c5Events "R" = round1 (listMeanInt
      (calculate_category_intervals (c5Events.filter (fun e => decide (e.category = "R"))))) :=
  ⟨(c5_pooled_intervals c5Events "R").1 10 (by with_unfolding_all decide),
   (c5_pooled_intervals c5Events "R").2.2 (by with_unfolding_all decide)⟩

/-- C7 counterexample: the entity of `c7Events` (stable id 5) had its trade
license renewed between its two collections; the code, grouping by trade
license, derives no pattern for it, while grouping by the stable entity
identifier would yield a pattern with `avg_interval_days = 10`. -/
theorem c7_counterexample :
    entity_patterns 0 c7Events = [] ∧
    (claimedPatternsById 0 c7Events).map (·.avg_interval_days) = [10] := by
  refine ⟨by with_unfolding_all decide, by with_unfolding_all decide⟩

/-- C7 amended: pattern grouping is keyed by `Trade License Number`, not by
the stable entity identifier: every produced pattern's license occurs in the
input (rows with a missing license are dropped), and its collection count is
the number of rows carrying exactly that license. -/
theorem c7_license_keyed (refDate : Int) (df : List Event) (p : EntityPattern)
    (hp : p ∈ entity_patterns refDate df) :
    p.trade_license ∈ df.filterMap (·.tradeLicense) ∧
    p.collections_count
      = (df.filter (fun e => decide (e.tradeLicense = some p.trade_license))).length := by
  unfold entity_patterns at hp
  rw [List.mem_filterMap] at hp
  obtain ⟨tl, htl, hmk⟩ := hp
  obtain ⟨hlic, hcnt⟩ := mkEntityPattern_fields hmk
  subst hlic
  unfold tradeLicensesOf at htl
  refine ⟨mem_uniqueFirstAux _ _ htl, ?_⟩
  rw [hcnt]
  unfold entityDataFor
  rw [sortByDay_length]

/-- Witness for C7 at the concrete `c2Events` input. -/
theorem c7_witness :
    (⟨1, 11, "O", "R", "A", "Z", 2, 10, -25, 25, 15, .critical, some 40⟩ :
        EntityPattern).trade_license ∈ c2Events.filterMap (·.tradeLicense) ∧
    (⟨1, 11, "O", "R", "A", "Z", 2, 10, -25, 25, 15, .critical, some 40⟩ :
        EntityPattern).collections_count
      = (c2Events.filter (fun e => decide (e.tradeLicense = some 1))).length :=
  c7_license_keyed 0 c2Events _ (by with_unfolding_all decide)

/-- C8 counterexample: two runs on identical events and reference date but
at different wall-clock instants produce different bytes — the markdown
report footer embeds `datetime.now()`. -/
theorem c8_counterexample :
    runEngine c1Events 0 "2023-04-10 09:00:00" ≠ runEngine c1Events 0 "2023-04-11 09:00:00" := by
  intro h
  exact absurd (congrArg RunOutput.reportFooter h) (by decide)

/-- C8 amended: every analytic result (patterns, delay analysis, forecast)
depends only on the events and the injected reference date — the wall clock
does not influence it; only the report footer reads the clock, and two runs
coincide byte-for-byte exactly when their footers do. -/
theorem c8_clock_noninterference (df : List Event) (refDate : Int) (t1 t2 : String) :
    (runEngine df refDate t1).patterns = (runEngine df refDate t2).patterns ∧
    (runEngine df refDate t1).delays = (runEngine df refDate t2).delays ∧
    (runEngine df refDate t1).forecast = (runEngine df refDate t2).forecast ∧
    (runEngine df refDate t1 = runEngine df refDate t2 ↔
      markdownFooter df.length t1 = markdownFooter df.length t2) := by
  refine ⟨rfl, rfl, rfl, ?_⟩
  constructor
  · intro h
    exact congrArg RunOutput.reportFooter h
  · intro h
    unfold runEngine
    rw [h]

end PieDash
